import Mathlib

/-!
Shallow embedding of `src/ai-service/app.py` (Smart-system AI emergency
detection microservice), together with theorems settling the claims about
its specification.

Numeric values are modelled as rationals (`ℚ`).  The source compares
`np.sqrt m > t` for nonnegative thresholds `t`; since `sqrt` is monotone
this is equivalent to `m > t^2`, which is the executable form used in the
definitions (`sqrtGt` below); bridging lemmas relate it to `Real.sqrt`.
Python `round(x, 1)` (round to one decimal, ties to even) is modelled by
`round1`.  The trained scikit-learn model objects are opaque to the claims;
they are modelled as function-valued fields of the detector structure.
-/

/-- A possibly-incomplete 3-component vector, as parsed from JSON:
each of the keys `x`, `y`, `z` may be absent (dict `.get` misses). -/
structure Vec3Opt where
  x : Option ℚ
  y : Option ℚ
  z : Option ℚ
  deriving DecidableEq

/-- The empty JSON object `{}` used as the default for a missing
`accelerometer` / `gyroscope` dict. -/
def Vec3Opt.empty : Vec3Opt := ⟨none, none, none⟩

/-- A sensor-data record (`SensorReading` of the spec): every field is
optional, mirroring Python dict `.get` access with defaults. -/
structure SensorData where
  accelerometer : Option Vec3Opt
  gyroscope : Option Vec3Opt
  speed : Option ℚ
  heartRate : Option ℚ
  oxygenLevel : Option ℚ
  deriving DecidableEq

/-- The empty JSON object `{}` used as the default sensor-data record. -/
def SensorData.empty : SensorData := ⟨none, none, none, none, none⟩

/-! ### Field reads in `AccidentDetector.detect_accident` (app.py lines 176-186) -/

/-- `sensor_data.get('accelerometer', {}).get('x', 0)` (line 177). -/
def getAccelX (sensor_data : SensorData) : ℚ :=
  ((sensor_data.accelerometer.getD Vec3Opt.empty).x).getD 0

/-- `sensor_data.get('accelerometer', {}).get('y', 0)` (line 178). -/
def getAccelY (sensor_data : SensorData) : ℚ :=
  ((sensor_data.accelerometer.getD Vec3Opt.empty).y).getD 0

/-- `sensor_data.get('accelerometer', {}).get('z', -9.8)` (line 179). -/
def getAccelZ (sensor_data : SensorData) : ℚ :=
  ((sensor_data.accelerometer.getD Vec3Opt.empty).z).getD (-9.8)

/-- `sensor_data.get('gyroscope', {}).get('x', 0)` (line 180). -/
def getGyroX (sensor_data : SensorData) : ℚ :=
  ((sensor_data.gyroscope.getD Vec3Opt.empty).x).getD 0

/-- `sensor_data.get('gyroscope', {}).get('y', 0)` (line 181). -/
def getGyroY (sensor_data : SensorData) : ℚ :=
  ((sensor_data.gyroscope.getD Vec3Opt.empty).y).getD 0

/-- `sensor_data.get('gyroscope', {}).get('z', 0)` (line 182). -/
def getGyroZ (sensor_data : SensorData) : ℚ :=
  ((sensor_data.gyroscope.getD Vec3Opt.empty).z).getD 0

/-- `sensor_data.get('speed', 0)` (line 183). -/
def getSpeed (sensor_data : SensorData) : ℚ := sensor_data.speed.getD 0

/-- `sensor_data.get('heartRate', 75)` (line 184). -/
def getHeartRate (sensor_data : SensorData) : ℚ := sensor_data.heartRate.getD 75

/-- `sensor_data.get('oxygenLevel', 98)` (line 185). -/
def getOxygenLevel (sensor_data : SensorData) : ℚ := sensor_data.oxygenLevel.getD 98

/-- The feature vector extracted in `detect_accident` (lines 176-186). -/
def featuresOf (sensor_data : SensorData) : List ℚ :=
  [getAccelX sensor_data, getAccelY sensor_data, getAccelZ sensor_data,
   getGyroX sensor_data, getGyroY sensor_data, getGyroZ sensor_data,
   getSpeed sensor_data, getHeartRate sensor_data, getOxygenLevel sensor_data]

/-! ### The comparison `np.sqrt m > t`

All uses of `np.sqrt` in the source appear as `np.sqrt(sum of squares) > t`
with a fixed nonnegative threshold `t`.  For `0 ≤ m` and `0 ≤ t` this is
equivalent to `t^2 < m`; `sqrtGt` is that executable form, and
`sqrtGt_iff_real` below proves the equivalence with `Real.sqrt`. -/

/-- `sqrtGt m t` models the Python comparison `np.sqrt m > t`
(for the nonnegative thresholds used in the source). -/
def sqrtGt (m t : ℚ) : Bool := decide (t ^ 2 < m)

/-! ### The detector and its model objects

The scikit-learn objects (`StandardScaler`, two `RandomForestClassifier`s,
`IsolationForest`) are trained at start-up on synthetic data; the claims
treat their numeric outputs as opaque, so they are modelled as arbitrary
functions from feature vectors to outputs. -/

/-- `self.scaler` — `transform` maps a raw feature vector to a scaled one. -/
structure StandardScaler where
  transform : List ℚ → List ℚ

/-- `self.accident_model` — `proba1 x` models `predict_proba([x])[0][1]`,
the predicted probability of the accident class. -/
structure RandomForestProba where
  proba1 : List ℚ → ℚ

/-- `self.anomaly_detector` — `score_samples` models
`score_samples([x])[0]` and `predictIsAnomaly x` models
`predict([x])[0] == -1`. -/
structure AnomalyDetector where
  score_samples : List ℚ → ℚ
  predictIsAnomaly : List ℚ → Bool

/-- `self.risk_model` — `predictClass x` models `predict([x])[0]`.  The
classifier was fitted on labels `{0, 1, 2}` (low / medium / high), so its
prediction is one of those three labels, modelled as `Fin 3`. -/
structure RandomForestRisk where
  predictClass : List ℚ → Fin 3

/-- The `AccidentDetector` object (app.py lines 24-301): the fitted scaler,
the three trained models and the `is_trained` flag. -/
structure AccidentDetector where
  scaler : StandardScaler
  accident_model : RandomForestProba
  anomaly_detector : AnomalyDetector
  risk_model : RandomForestRisk
  is_trained : Bool

/-- The successful payload of `detect_accident` (the `AccidentAnalysis` of
the spec, lines 204-210). -/
structure AccidentAnalysis where
  accident_detected : Bool
  accident_probability : ℚ
  anomaly_score : ℚ
  risk_level : String
  confidence : ℚ
  deriving DecidableEq

/-- Result of `detect_accident`: either the analysis dict or an error dict
`{'error': msg}` (returned both when models are untrained, line 172, and
from the `except` clause, line 214). -/
inductive DetectResult where
  | ok (a : AccidentAnalysis)
  | err (msg : String)
  deriving DecidableEq

/-- Line 202: `accident_prob > 0.7 or (is_anomaly and accident_prob > 0.4)`. -/
def accidentDetectedFlag (is_anomaly : Bool) (accident_prob : ℚ) : Bool :=
  decide ((7 : ℚ)/10 < accident_prob) ||
    (is_anomaly && decide ((2 : ℚ)/5 < accident_prob))

/-- `AccidentDetector.detect_accident` (app.py lines 169-214).  The method
assigns no attribute of `self`, so the returned detector is the receiver
unchanged.  In this typed embedding the `try` body cannot raise, so the
only error path is the untrained-models guard (line 171-172). -/
def AccidentDetector.detect_accident (self : AccidentDetector)
    (sensor_data : SensorData) : AccidentDetector × DetectResult :=
  if self.is_trained = false then (self, .err "Models not trained")
  else
    let features := featuresOf sensor_data
    let features_scaled := self.scaler.transform features
    let accident_prob := self.accident_model.proba1 features_scaled
    let anomaly_score := self.anomaly_detector.score_samples features_scaled
    let is_anomaly := self.anomaly_detector.predictIsAnomaly features_scaled
    let risk_level := self.risk_model.predictClass features_scaled
    let accident_detected : Bool := accidentDetectedFlag is_anomaly accident_prob
    (self, .ok {
      accident_detected := accident_detected
      accident_probability := accident_prob
      anomaly_score := anomaly_score
      risk_level := ["low", "medium", "high"].get risk_level
      confidence := if accident_detected then accident_prob else 1 - accident_prob })

/-! ### Field reads in `AccidentDetector.assess_driving_risk` (lines 227-248) -/

/-- `sensor_data.get('speed', 0)` (line 230). -/
def asSpeed (sensor_data : SensorData) : ℚ := sensor_data.speed.getD 0

/-- `accel.get('x', 0)` where `accel = sensor_data.get('accelerometer', {})`
(lines 238-239). -/
def asAccelX (sensor_data : SensorData) : ℚ :=
  ((sensor_data.accelerometer.getD Vec3Opt.empty).x).getD 0

/-- `accel.get('y', 0)` (line 239). -/
def asAccelY (sensor_data : SensorData) : ℚ :=
  ((sensor_data.accelerometer.getD Vec3Opt.empty).y).getD 0

/-- `accel.get('z', -9.8)` (line 239). -/
def asAccelZ (sensor_data : SensorData) : ℚ :=
  ((sensor_data.accelerometer.getD Vec3Opt.empty).z).getD (-9.8)

/-- `gyro.get('x', 0)` where `gyro = sensor_data.get('gyroscope', {})`
(lines 247-248). -/
def asGyroX (sensor_data : SensorData) : ℚ :=
  ((sensor_data.gyroscope.getD Vec3Opt.empty).x).getD 0

/-- `gyro.get('y', 0)` (line 248). -/
def asGyroY (sensor_data : SensorData) : ℚ :=
  ((sensor_data.gyroscope.getD Vec3Opt.empty).y).getD 0

/-- `gyro.get('z', 0)` (line 248). -/
def asGyroZ (sensor_data : SensorData) : ℚ :=
  ((sensor_data.gyroscope.getD Vec3Opt.empty).z).getD 0

/-- One record of the driving history: `record.get('sensorData', {})`
(line 227) reads an optional `sensorData` key. -/
structure DrivingRecord where
  sensorData : Option SensorData
  deriving DecidableEq

/-- `driving_history[-100:]` — the last 100 records (all, when fewer). -/
def last100 (l : List DrivingRecord) : List DrivingRecord :=
  l.drop (l.length - 100)

/-- The squared accelerometer magnitude of line 239:
`accel.get('x',0)**2 + accel.get('y',0)**2 + accel.get('z',-9.8)**2`
(the source takes `np.sqrt` of this sum; all its uses are comparisons
against nonnegative thresholds, handled by `sqrtGt`). -/
def asAccelMagSq (sensor_data : SensorData) : ℚ :=
  asAccelX sensor_data ^ 2 + asAccelY sensor_data ^ 2 + asAccelZ sensor_data ^ 2

/-- The squared gyroscope magnitude of line 248. -/
def asGyroMagSq (sensor_data : SensorData) : ℚ :=
  asGyroX sensor_data ^ 2 + asGyroY sensor_data ^ 2 + asGyroZ sensor_data ^ 2

/-- Speed contribution to `total_score` for one record (lines 230-235):
`+10` above 100 km/h, `+5` above 80 km/h. -/
def record_speed_score (sensor_data : SensorData) : ℚ :=
  if 100 < asSpeed sensor_data then 10
  else if 80 < asSpeed sensor_data then 5
  else 0

/-- Risk factor appended by the speed branch (line 232). -/
def record_speed_factors (sensor_data : SensorData) : List String :=
  if 100 < asSpeed sensor_data then ["Excessive speeding detected"] else []

/-- Acceleration contribution to `total_score` (lines 238-244):
`+8` when `np.sqrt` of the squared magnitude exceeds 15, `+4` above 12. -/
def record_accel_score (sensor_data : SensorData) : ℚ :=
  if sqrtGt (asAccelMagSq sensor_data) 15 then 8
  else if sqrtGt (asAccelMagSq sensor_data) 12 then 4
  else 0

/-- Risk factor appended by the acceleration branch (line 241). -/
def record_accel_factors (sensor_data : SensorData) : List String :=
  if sqrtGt (asAccelMagSq sensor_data) 15 then ["Hard braking/acceleration detected"] else []

/-- Gyroscope contribution to `total_score` (lines 247-253):
`+6` when the magnitude exceeds 3, `+3` above 2. -/
def record_gyro_score (sensor_data : SensorData) : ℚ :=
  if sqrtGt (asGyroMagSq sensor_data) 3 then 6
  else if sqrtGt (asGyroMagSq sensor_data) 2 then 3
  else 0

/-- Risk factor appended by the gyroscope branch (line 250). -/
def record_gyro_factors (sensor_data : SensorData) : List String :=
  if sqrtGt (asGyroMagSq sensor_data) 3 then ["Sharp turns detected"] else []

/-- Total `total_score` contribution of one history record
(one iteration of the loop at lines 226-253). -/
def record_score (record : DrivingRecord) : ℚ :=
  let sensor_data := record.sensorData.getD SensorData.empty
  record_speed_score sensor_data + record_accel_score sensor_data +
    record_gyro_score sensor_data

/-- Risk factors appended by one iteration of the loop, in program order. -/
def record_factors (record : DrivingRecord) : List String :=
  let sensor_data := record.sensorData.getD SensorData.empty
  record_speed_factors sensor_data ++ record_accel_factors sensor_data ++
    record_gyro_factors sensor_data

/-- `total_score` accumulated over the loop (lines 223-253). -/
def total_score (recent : List DrivingRecord) : ℚ :=
  (recent.map record_score).sum

/-- The `risk_factors` list accumulated over the loop, before
`list(set(...))` dedup. -/
def all_factors (recent : List DrivingRecord) : List String :=
  (recent.map record_factors).flatten

/-- `risk_score = min(100, max(0, 50 + (total_score / len(...) * 10)))`
(line 256); `recent` is `driving_history[-100:]`. -/
def raw_risk_score (recent : List DrivingRecord) : ℚ :=
  min 100 (max 0 (50 + total_score recent / (recent.length : ℚ) * 10))

/-- The risk-level bucket (lines 259-264). -/
def risk_level_of (risk_score : ℚ) : String :=
  if 80 < risk_score then "high"
  else if 60 < risk_score then "medium"
  else "low"

/-- `10 * x` rounded to the nearest integer, ties to even (the integer
part of Python `round(x, 1)`). -/
def round1Int (x : ℚ) : ℤ :=
  if 10 * x - ⌊10 * x⌋ < 1/2 then ⌊10 * x⌋
  else if 1/2 < 10 * x - ⌊10 * x⌋ then ⌊10 * x⌋ + 1
  else if ⌊10 * x⌋ % 2 = 0 then ⌊10 * x⌋ else ⌊10 * x⌋ + 1

/-- Python `round(x, 1)`: round to the nearest multiple of 1/10,
ties to even (modelled exactly on rationals; the float representation
of the source is idealised away). -/
def round1 (x : ℚ) : ℚ := (round1Int x : ℚ) / 10

/-- `_get_safety_recommendations` (lines 277-301): a fixed dict lookup
with `'medium'` as fallback for an unknown level. -/
def get_safety_recommendations (risk_level : String) : List String :=
  if risk_level = "low" then
    ["Continue maintaining safe driving habits",
     "Regular vehicle maintenance checks",
     "Stay alert and avoid distractions"]
  else if risk_level = "medium" then
    ["Reduce speed and maintain safe following distance",
     "Avoid aggressive acceleration and braking",
     "Take breaks during long drives",
     "Check tire pressure and brake condition"]
  else if risk_level = "high" then
    ["Immediately reduce driving speed",
     "Avoid driving during peak traffic hours",
     "Consider defensive driving course",
     "Have vehicle inspected by mechanic",
     "Take frequent breaks and stay hydrated",
     "Avoid night driving if possible"]
  else
    ["Reduce speed and maintain safe following distance",
     "Avoid aggressive acceleration and braking",
     "Take breaks during long drives",
     "Check tire pressure and brake condition"]

/-- The returned risk assessment dict.  The empty-history branch
(line 219) returns only `risk_score` and `risk_level`, so the other two
keys are `Option`s: `none` models an absent key. -/
structure RiskAssessment where
  risk_score : ℚ
  risk_level : String
  risk_factors : Option (List String)
  recommendations : Option (List String)
  deriving DecidableEq

/-- The non-empty branch of `assess_driving_risk` (lines 221-271),
taking `recent = driving_history[-100:]`.  `list(set(risk_factors))`
removes duplicates (CPython iterates the set in hash order; the order is a
deterministic function of the collected factors, modelled by `dedup`). -/
def assessBody (recent : List DrivingRecord) : RiskAssessment :=
  let risk_score := raw_risk_score recent
  { risk_score := round1 risk_score
    risk_level := risk_level_of risk_score
    risk_factors := some (all_factors recent).dedup
    recommendations := some (get_safety_recommendations (risk_level_of risk_score)) }

/-- `AccidentDetector.assess_driving_risk` (lines 216-275).  The method
reads and assigns no attribute of `self`, so the returned detector is the
receiver unchanged and the result does not depend on the models.  In this
typed embedding the `try` body cannot raise (the division at line 256 is
by the length of a non-empty list). -/
def AccidentDetector.assess_driving_risk (self : AccidentDetector)
    (driving_history : List DrivingRecord) : AccidentDetector × RiskAssessment :=
  match driving_history with
  | [] => (self, { risk_score := 50, risk_level := "medium",
                   risk_factors := none, recommendations := none })
  | _ :: _ => (self, assessBody (last100 driving_history))

/-! ### Dict reads on the result of `detect_accident`

The request handlers read the analysis dict with `.get`: on the error dict
the keys are missing and the defaults apply (`None` is falsy). -/

/-- `accident_analysis.get('accident_detected')`, used as a truth value
(lines 331, 352, 382): missing key reads as false. -/
def DetectResult.detectedFlag : DetectResult → Bool
  | .ok a => a.accident_detected
  | .err _ => false

/-- `accident_analysis.get('accident_probability', 0)` (line 348). -/
def DetectResult.probabilityD : DetectResult → ℚ
  | .ok a => a.accident_probability
  | .err _ => 0

/-- `accident_analysis.get('confidence', 0.5)` (line 351). -/
def DetectResult.confidenceD : DetectResult → ℚ
  | .ok a => a.confidence
  | .err _ => 1/2

/-- `current_analysis.get('risk_level', 'medium')` (line 383). -/
def DetectResult.riskLevelD : DetectResult → String
  | .ok a => a.risk_level
  | .err _ => "medium"

/-! ### Field reads in `analyze_emergency` (lines 339, 343) -/

/-- `sensor_data.get('heartRate', 75)` (line 339). -/
def emHeartRate (sensor_data : SensorData) : ℚ := sensor_data.heartRate.getD 75

/-- `sensor_data.get('oxygenLevel', 98)` (line 343). -/
def emOxygenLevel (sensor_data : SensorData) : ℚ := sensor_data.oxygenLevel.getD 98

/-- Parsed JSON of a `POST /api/analyze-emergency` request (lines 319-322).
`etype` models the JSON key `type`; `etype` and `location` are read into
locals but never used. -/
structure EmergencyRequest where
  sensorData : Option SensorData
  etype : Option String
  location : Option (ℚ × ℚ)

/-- The JSON response of `analyze_emergency` (lines 347-354). -/
structure EmergencyResponse where
  accidentProbability : ℚ
  riskFactors : List String
  recommendedAction : String
  confidence : ℚ
  urgency : String
  analysis : DetectResult
  deriving DecidableEq

/-- Body of the `analyze_emergency` handler (lines 318-356), for a request
whose JSON parsed successfully. -/
def analyze_emergency_body (detector : AccidentDetector)
    (data : EmergencyRequest) : EmergencyResponse :=
  let sensor_data := data.sensorData.getD SensorData.empty
  let accident_analysis := (detector.detect_accident sensor_data).2
  let recommendations₀ : List String :=
    if accident_analysis.detectedFlag then
      ["Immediate medical attention required",
       "Contact emergency services",
       "Do not move if spinal injury suspected"]
    else []
  let risk_factors₀ : List String :=
    if accident_analysis.detectedFlag then ["High impact detected"] else []
  let risk_factors₁ := risk_factors₀ ++
    (if 100 < emHeartRate sensor_data then ["Elevated heart rate"] else [])
  let recommendations₁ := recommendations₀ ++
    (if 100 < emHeartRate sensor_data then ["Monitor vital signs"] else [])
  let risk_factors₂ := risk_factors₁ ++
    (if emOxygenLevel sensor_data < 95 then ["Low oxygen saturation"] else [])
  let recommendations₂ := recommendations₁ ++
    (if emOxygenLevel sensor_data < 95 then ["Ensure clear airway"] else [])
  { accidentProbability := accident_analysis.probabilityD
    riskFactors := risk_factors₂
    recommendedAction := recommendations₂.headD "Monitor situation"
    confidence := accident_analysis.confidenceD
    urgency := if accident_analysis.detectedFlag then "critical" else "medium"
    analysis := accident_analysis }

/-- Parsed JSON of a `POST /api/assess-risk` request (lines 366-368). -/
structure AssessRequest where
  drivingHistory : Option (List DrivingRecord)
  currentSensorData : Option SensorData

/-- The JSON response of the `/api/assess-risk` handler (lines 376-385);
`safe` and `alertLevel` are the fields of `currentDrivingStatus`. -/
structure AssessResponse where
  riskScore : ℚ
  riskLevel : String
  riskFactors : List String
  recommendations : List String
  safe : Bool
  alertLevel : String
  deriving DecidableEq

/-- Body of the `/api/assess-risk` handler (lines 365-387).  The reads
`risk_assessment.get('risk_factors', [])` and `.get('recommendations', [])`
default the keys that the empty-history branch omits. -/
def assess_risk_body (detector : AccidentDetector)
    (data : AssessRequest) : AssessResponse :=
  let driving_history := data.drivingHistory.getD []
  let current_sensor_data := data.currentSensorData.getD SensorData.empty
  let risk_assessment := (detector.assess_driving_risk driving_history).2
  let current_analysis := (detector.detect_accident current_sensor_data).2
  { riskScore := risk_assessment.risk_score
    riskLevel := risk_assessment.risk_level
    riskFactors := risk_assessment.risk_factors.getD []
    recommendations := risk_assessment.recommendations.getD []
    safe := !current_analysis.detectedFlag
    alertLevel := current_analysis.riskLevelD }

/-! ### Field reads in `predict_behavior` (lines 407-419) -/

/-- `sensor_data.get('speed', 0)` (line 407). -/
def pbSpeed (sensor_data : SensorData) : ℚ := sensor_data.speed.getD 0

/-- `accel.get('x', 0)` where `accel = sensor_data.get('accelerometer', {})`
(lines 412-413). -/
def pbAccelX (sensor_data : SensorData) : ℚ :=
  ((sensor_data.accelerometer.getD Vec3Opt.empty).x).getD 0

/-- `accel.get('y', 0)` (line 413). -/
def pbAccelY (sensor_data : SensorData) : ℚ :=
  ((sensor_data.accelerometer.getD Vec3Opt.empty).y).getD 0

/-- `gyro.get('x', 0)` where `gyro = sensor_data.get('gyroscope', {})`
(lines 418-419). -/
def pbGyroX (sensor_data : SensorData) : ℚ :=
  ((sensor_data.gyroscope.getD Vec3Opt.empty).x).getD 0

/-- `gyro.get('y', 0)` (line 419). -/
def pbGyroY (sensor_data : SensorData) : ℚ :=
  ((sensor_data.gyroscope.getD Vec3Opt.empty).y).getD 0

/-- `gyro.get('z', 0)` (line 419). -/
def pbGyroZ (sensor_data : SensorData) : ℚ :=
  ((sensor_data.gyroscope.getD Vec3Opt.empty).z).getD 0

/-- The squared accelerometer magnitude of line 413:
`accel.get('x',0)**2 + accel.get('y',0)**2` — only the x and y components,
the z component is not read in `predict_behavior`. -/
def pbAccelMagSq (sensor_data : SensorData) : ℚ :=
  pbAccelX sensor_data ^ 2 + pbAccelY sensor_data ^ 2

/-- The squared gyroscope magnitude of line 419 (all three components). -/
def pbGyroMagSq (sensor_data : SensorData) : ℚ :=
  pbGyroX sensor_data ^ 2 + pbGyroY sensor_data ^ 2 + pbGyroZ sensor_data ^ 2

/-- Parsed JSON of a `POST /api/predict-behavior` request (line 398). -/
structure BehaviorRequest where
  sensorData : Option SensorData

/-- The JSON response of the `predict_behavior` handler (lines 424-433). -/
structure BehaviorResponse where
  riskyBehaviors : List String
  alerts : List String
  safetyScore : ℚ
  recommendations : List String
  deriving DecidableEq

/-- Body of the `predict_behavior` handler (lines 397-435). -/
def predict_behavior_body (detector : AccidentDetector)
    (data : BehaviorRequest) : BehaviorResponse :=
  let sensor_data := data.sensorData.getD SensorData.empty
  let _analysis := (detector.detect_accident sensor_data).2
  let speed := pbSpeed sensor_data
  let behaviors₁ : List String := if 80 < speed then ["speeding"] else []
  let alerts₁ : List String :=
    if 80 < speed then ["Speed warning: " ++ toString speed ++ " km/h detected"] else []
  let behaviors₂ := behaviors₁ ++
    (if sqrtGt (pbAccelMagSq sensor_data) 8 then ["harsh_acceleration"] else [])
  let alerts₂ := alerts₁ ++
    (if sqrtGt (pbAccelMagSq sensor_data) 8 then ["Harsh acceleration detected"] else [])
  let behaviors₃ := behaviors₂ ++
    (if sqrtGt (pbGyroMagSq sensor_data) 2 then ["sharp_turning"] else [])
  let alerts₃ := alerts₂ ++
    (if sqrtGt (pbGyroMagSq sensor_data) 2 then ["Sharp turning detected"] else [])
  { riskyBehaviors := behaviors₃
    alerts := alerts₃
    safetyScore := max 0 (100 - (behaviors₃.length : ℚ) * 20)
    recommendations :=
      ["Maintain steady speed",
       "Smooth acceleration and braking",
       "Gentle steering inputs"] }

/-! ### Request boundary

Each `POST` handler wraps its whole body in `try/except Exception` and the
`except` clause returns `jsonify({'error': str(e)}), 500`; a body that
completes returns `jsonify(response)` with the default status 200.  A
request is modelled as `Option`: `none` stands for a request whose handling
raised inside the `try` body (e.g. `request.get_json()` failing on
malformed JSON, or attribute access on ill-shaped data); `some data`
stands for a well-formed request, on which the typed body is total. -/

/-- A JSON response body: one of the three handlers' success payloads, or
the `{'error': str(e)}` payload of an `except` clause. -/
inductive HttpBody where
  | emergency (r : EmergencyResponse)
  | assessment (r : AssessResponse)
  | behavior (r : BehaviorResponse)
  | errorBody (msg : String)
  deriving DecidableEq

/-- The `/api/analyze-emergency` route (lines 315-360): HTTP status and
JSON body. -/
def analyze_emergency_route (detector : AccidentDetector)
    (req : Option EmergencyRequest) : ℕ × HttpBody :=
  match req with
  | some data => (200, .emergency (analyze_emergency_body detector data))
  | none => (500, .errorBody "exception raised during request handling")

/-- The `/api/assess-risk` route (lines 362-391). -/
def assess_risk_route (detector : AccidentDetector)
    (req : Option AssessRequest) : ℕ × HttpBody :=
  match req with
  | some data => (200, .assessment (assess_risk_body detector data))
  | none => (500, .errorBody "exception raised during request handling")

/-- The `/api/predict-behavior` route (lines 393-439). -/
def predict_behavior_route (detector : AccidentDetector)
    (req : Option BehaviorRequest) : ℕ × HttpBody :=
  match req with
  | some data => (200, .behavior (predict_behavior_body detector data))
  | none => (500, .errorBody "exception raised during request handling")

/-! ### `_generate_risk_labels` (lines 129-167) -/

/-- A row of the synthetic training frame: the nine numeric features. -/
structure FeatureRow where
  accel_x : ℚ
  accel_y : ℚ
  accel_z : ℚ
  gyro_x : ℚ
  gyro_y : ℚ
  gyro_z : ℚ
  speed : ℚ
  heart_rate : ℚ
  oxygen_level : ℚ
  deriving DecidableEq

/-- Speed risk of `_generate_risk_labels` (lines 136-139). -/
def riskLabelSpeedRisk (row : FeatureRow) : ℕ :=
  if 80 < row.speed then 2 else if 60 < row.speed then 1 else 0

/-- Acceleration risk of `_generate_risk_labels` (lines 142-146):
thresholds on `np.sqrt(accel_x**2 + accel_y**2 + accel_z**2)`. -/
def riskLabelAccelRisk (row : FeatureRow) : ℕ :=
  if sqrtGt (row.accel_x ^ 2 + row.accel_y ^ 2 + row.accel_z ^ 2) 12 then 2
  else if sqrtGt (row.accel_x ^ 2 + row.accel_y ^ 2 + row.accel_z ^ 2) 10 then 1
  else 0

/-- Rotation risk of `_generate_risk_labels` (lines 149-153). -/
def riskLabelGyroRisk (row : FeatureRow) : ℕ :=
  if sqrtGt (row.gyro_x ^ 2 + row.gyro_y ^ 2 + row.gyro_z ^ 2) 2 then 2
  else if sqrtGt (row.gyro_x ^ 2 + row.gyro_y ^ 2 + row.gyro_z ^ 2) 1 then 1
  else 0

/-- Health risk of `_generate_risk_labels` (lines 156-157). -/
def riskLabelHealthRisk (row : FeatureRow) : ℕ :=
  if 100 < row.heart_rate ∨ row.oxygen_level < 95 then 1 else 0

/-- The per-row label of `_generate_risk_labels` (lines 132-165):
0 = low, 1 = medium, 2 = high. -/
def riskLabelOfRow (row : FeatureRow) : ℕ :=
  let risk := riskLabelSpeedRisk row + riskLabelAccelRisk row +
    riskLabelGyroRisk row + riskLabelHealthRisk row
  if 4 ≤ risk then 2 else if 2 ≤ risk then 1 else 0

/-- `_generate_risk_labels` applied to the whole frame. -/
def generate_risk_labels (X : List FeatureRow) : List ℕ :=
  X.map riskLabelOfRow

/-! ### Concrete fixture used by witnesses and counterexamples -/

/-- A concrete detector whose model objects are constant functions:
the scaler is the identity, the accident model predicts probability `p`,
the anomaly detector reports no anomaly, the risk model predicts class 0. -/
def constDetector (trainedFlag : Bool) (p : ℚ) : AccidentDetector :=
  { scaler := ⟨id⟩
    accident_model := ⟨fun _ => p⟩
    anomaly_detector := ⟨fun _ => 0, fun _ => false⟩
    risk_model := ⟨fun _ => 0⟩
    is_trained := trainedFlag }

/-! ### Concrete fixtures used by witnesses and counterexamples -/

/-- A one-record driving history whose record has no `sensorData` key. -/
def sampleHistory : List DrivingRecord := [{ sensorData := none }]

/-- A detector whose training failed (`is_trained` stayed false). -/
def untrainedDetector : AccidentDetector := constDetector false 0

/-- An emergency request carrying no fields. -/
def emptyEmergencyRequest : EmergencyRequest := ⟨none, none, none⟩

/-- A sensor record with accelerometer `(0, 0, 20)` and nothing else. -/
def sensorZ20 : SensorData :=
  { accelerometer := some ⟨some 0, some 0, some 20⟩, gyroscope := none,
    speed := none, heartRate := none, oxygenLevel := none }

/-- The analysis `detect_accident` produces on `SensorData.empty` with the
`constDetector true (1/2)` fixture. -/
def sampleAnalysis : AccidentAnalysis := ⟨false, 1/2, 0, "low", 1/2⟩

/-! ### Supporting lemmas -/

/-- Bridge between the executable comparison `sqrtGt` and the real square
root of the source: for a nonnegative threshold `t`,
`np.sqrt m > t` iff `t < Real.sqrt m`. -/
lemma sqrtGt_iff_real {m t : ℚ} (ht : 0 ≤ t) :
    sqrtGt m t = true ↔ (t : ℝ) < Real.sqrt (m : ℝ) := by
  unfold sqrtGt
  simp only [decide_eq_true_eq]
  rw [Real.lt_sqrt (by exact_mod_cast ht)]
  constructor
  · intro h; exact_mod_cast h
  · intro h; exact_mod_cast h

/-- `round1` never falls below an integer lower bound of its argument. -/
lemma le_round1 {a : ℤ} {x : ℚ} (h : (a : ℚ) ≤ x) : (a : ℚ) ≤ round1 x := by
  have h10 : ((10 * a : ℤ) : ℚ) ≤ 10 * x := by push_cast; linarith
  have hfl : (10 * a : ℤ) ≤ ⌊10 * x⌋ := Int.le_floor.mpr h10
  have hk : (10 * a : ℤ) ≤ round1Int x := by
    unfold round1Int
    split_ifs <;> omega
  have hcast : ((10 * a : ℤ) : ℚ) ≤ (round1Int x : ℚ) := by exact_mod_cast hk
  unfold round1
  push_cast at hcast ⊢
  linarith

/-- `round1` never exceeds an integer upper bound of its argument. -/
lemma round1_le {b : ℤ} {x : ℚ} (h : x ≤ (b : ℚ)) : round1 x ≤ (b : ℚ) := by
  have h10 : 10 * x ≤ ((10 * b : ℤ) : ℚ) := by push_cast; linarith
  have hfl : ⌊10 * x⌋ ≤ 10 * b := by
    have h2 : ⌊10 * x⌋ ≤ ⌊((10 * b : ℤ) : ℚ)⌋ := Int.floor_le_floor h10
    rwa [Int.floor_intCast] at h2
  have hk : round1Int x ≤ 10 * b := by
    have hstep : ¬(10 * x - ⌊10 * x⌋ < 1/2) → ⌊10 * x⌋ < 10 * b := by
      intro h1
      have h1' : (1 : ℚ)/2 ≤ 10 * x - ⌊10 * x⌋ := not_lt.mp h1
      have hlt : (⌊10 * x⌋ : ℚ) < 10 * x := by linarith
      have : (⌊10 * x⌋ : ℚ) < ((10 * b : ℤ) : ℚ) := lt_of_lt_of_le hlt h10
      exact_mod_cast this
    unfold round1Int
    split_ifs with h1 h2 h3
    · exact hfl
    · have := hstep h1; omega
    · exact hfl
    · have := hstep h1; omega
  have hcast : (round1Int x : ℚ) ≤ ((10 * b : ℤ) : ℚ) := by exact_mod_cast hk
  unfold round1
  push_cast at hcast ⊢
  linarith

/-- Each per-record speed penalty is nonnegative. -/
lemma record_speed_score_nonneg (s : SensorData) : 0 ≤ record_speed_score s := by
  unfold record_speed_score; split_ifs <;> norm_num

/-- Each per-record acceleration penalty is nonnegative. -/
lemma record_accel_score_nonneg (s : SensorData) : 0 ≤ record_accel_score s := by
  unfold record_accel_score; split_ifs <;> norm_num

/-- Each per-record gyroscope penalty is nonnegative. -/
lemma record_gyro_score_nonneg (s : SensorData) : 0 ≤ record_gyro_score s := by
  unfold record_gyro_score; split_ifs <;> norm_num

/-- Each record contributes a nonnegative amount to `total_score`. -/
lemma record_score_nonneg (r : DrivingRecord) : 0 ≤ record_score r := by
  simp only [record_score]
  have h1 := record_speed_score_nonneg (r.sensorData.getD SensorData.empty)
  have h2 := record_accel_score_nonneg (r.sensorData.getD SensorData.empty)
  have h3 := record_gyro_score_nonneg (r.sensorData.getD SensorData.empty)
  linarith

/-- `total_score` is a sum of nonnegative per-record penalties. -/
lemma total_score_nonneg (recent : List DrivingRecord) : 0 ≤ total_score recent := by
  unfold total_score
  apply List.sum_nonneg
  intro x hx
  rw [List.mem_map] at hx
  obtain ⟨r, _, rfl⟩ := hx
  exact record_score_nonneg r

/-- For a non-empty slice, the raw risk score lies in `[50, 100]`. -/
lemma raw_risk_score_bounds (recent : List DrivingRecord) (h : recent ≠ []) :
    50 ≤ raw_risk_score recent ∧ raw_risk_score recent ≤ 100 := by
  unfold raw_risk_score
  have hlen : 0 < (recent.length : ℚ) := by
    have : 0 < recent.length := List.length_pos.mpr h
    exact_mod_cast this
  have hts : 0 ≤ total_score recent := total_score_nonneg recent
  have hdiv : 0 ≤ total_score recent / (recent.length : ℚ) * 10 := by positivity
  constructor
  · have h2 : (0 : ℚ) ≤ 50 + total_score recent / (recent.length : ℚ) * 10 := by linarith
    rw [max_eq_right h2]
    exact le_min_iff.mpr ⟨by norm_num, by linarith⟩
  · exact min_le_left _ _

/-- The last-100 slice has at most 100 elements. -/
lemma last100_length_le (l : List DrivingRecord) : (last100 l).length ≤ 100 := by
  unfold last100; rw [List.length_drop]; omega

/-- Taking the last 100 records twice is the same as taking them once. -/
lemma last100_idem (l : List DrivingRecord) : last100 (last100 l) = last100 l := by
  unfold last100
  rw [List.length_drop]
  have h0 : l.length - (l.length - 100) - 100 = 0 := by omega
  rw [h0, List.drop_zero]

/-- The last-100 slice is empty exactly when the history is. -/
lemma last100_eq_nil_iff (l : List DrivingRecord) : last100 l = [] ↔ l = [] := by
  constructor
  · intro h
    have hlen : (last100 l).length = 0 := by rw [h]; rfl
    unfold last100 at hlen
    rw [List.length_drop] at hlen
    have h0 : l.length = 0 := by omega
    exact List.length_eq_zero.mp h0
  · rintro rfl; rfl

/-- On a non-empty history, `assess_driving_risk` returns the receiver
unchanged together with the non-empty-branch result on the last 100
records. -/
lemma assess_driving_risk_eq (d : AccidentDetector) {l : List DrivingRecord}
    (hne : l ≠ []) :
    d.assess_driving_risk l = (d, assessBody (last100 l)) := by
  cases l with
  | nil => exact absurd rfl hne
  | cons a t => rfl

/-- Case analysis on the detection flag for the confidence field. -/
lemma confidence_cases (b : Bool) (p : ℚ) (h0 : 0 ≤ p) (h1 : p ≤ 1) :
    (0 ≤ (if b then p else 1 - p) ∧ (if b then p else 1 - p) ≤ 1) ∧
    (b = true → (if b then p else 1 - p) = p) ∧
    (b = false → (if b then p else 1 - p) = 1 - p) := by
  cases b
  · have hif : (if (false : Bool) then p else 1 - p) = 1 - p := by simp
    rw [hif]
    exact ⟨⟨by linarith, by linarith⟩, fun h => Bool.noConfusion h, fun _ => rfl⟩
  · have hif : (if (true : Bool) then p else 1 - p) = p := by simp
    rw [hif]
    exact ⟨⟨h0, h1⟩, fun _ => rfl, fun h => Bool.noConfusion h⟩

/-! ### Claim theorems -/

/-- C1: for every non-empty driving history (records modelled with numeric
sensor fields), the `risk_score` returned by `assess_driving_risk` is the
rounded value of `min(100, max(0, 50 + total_score / len * 10))` over the
last 100 records, and it lies between 0 and 100 inclusive. -/
theorem c1_risk_score_in_range (d : AccidentDetector)
    (driving_history : List DrivingRecord) (hne : driving_history ≠ []) :
    (d.assess_driving_risk driving_history).2.risk_score =
      round1 (raw_risk_score (last100 driving_history)) ∧
    0 ≤ (d.assess_driving_risk driving_history).2.risk_score ∧
    (d.assess_driving_risk driving_history).2.risk_score ≤ 100 := by
  rw [assess_driving_risk_eq d hne]
  have hne' : last100 driving_history ≠ [] :=
    fun c => hne ((last100_eq_nil_iff driving_history).mp c)
  obtain ⟨hlo, hhi⟩ := raw_risk_score_bounds _ hne'
  refine ⟨rfl, ?_, ?_⟩
  · show (0 : ℚ) ≤ round1 (raw_risk_score (last100 driving_history))
    have h50 : ((50 : ℤ) : ℚ) ≤ raw_risk_score (last100 driving_history) := by
      exact_mod_cast hlo
    have hr := le_round1 h50
    push_cast at hr
    linarith
  · show round1 (raw_risk_score (last100 driving_history)) ≤ (100 : ℚ)
    have h100 : raw_risk_score (last100 driving_history) ≤ ((100 : ℤ) : ℚ) := by
      exact_mod_cast hhi
    have hr := round1_le h100
    push_cast at hr
    linarith

/-- C1 witness: the theorem instantiated at a concrete detector and a
concrete one-record history. -/
theorem c1_witness :
    ((constDetector true (1/2)).assess_driving_risk sampleHistory).2.risk_score =
      round1 (raw_risk_score (last100 sampleHistory)) ∧
    0 ≤ ((constDetector true (1/2)).assess_driving_risk sampleHistory).2.risk_score ∧
    ((constDetector true (1/2)).assess_driving_risk sampleHistory).2.risk_score ≤ 100 :=
  c1_risk_score_in_range (constDetector true (1/2)) sampleHistory (List.cons_ne_nil _ _)

/-- C9: for every non-empty driving history the returned risk score is at
least 50, and the returned risk level is `'low'` only when the score lies
in the 50 to 60 range. -/
theorem c9_score_at_least_50 (d : AccidentDetector)
    (driving_history : List DrivingRecord) (hne : driving_history ≠ []) :
    50 ≤ (d.assess_driving_risk driving_history).2.risk_score ∧
    ((d.assess_driving_risk driving_history).2.risk_level = "low" →
      50 ≤ (d.assess_driving_risk driving_history).2.risk_score ∧
      (d.assess_driving_risk driving_history).2.risk_score ≤ 60) := by
  rw [assess_driving_risk_eq d hne]
  have hne' : last100 driving_history ≠ [] :=
    fun c => hne ((last100_eq_nil_iff driving_history).mp c)
  obtain ⟨hlo, hhi⟩ := raw_risk_score_bounds _ hne'
  show (50 : ℚ) ≤ round1 (raw_risk_score (last100 driving_history)) ∧
    (risk_level_of (raw_risk_score (last100 driving_history)) = "low" →
      (50 : ℚ) ≤ round1 (raw_risk_score (last100 driving_history)) ∧
      round1 (raw_risk_score (last100 driving_history)) ≤ 60)
  have hge : (50 : ℚ) ≤ round1 (raw_risk_score (last100 driving_history)) := by
    have h50 : ((50 : ℤ) : ℚ) ≤ raw_risk_score (last100 driving_history) := by
      exact_mod_cast hlo
    have hr := le_round1 h50
    push_cast at hr
    linarith
  refine ⟨hge, fun hlev => ⟨hge, ?_⟩⟩
  have hraw60 : raw_risk_score (last100 driving_history) ≤ 60 := by
    by_contra hgt
    push_neg at hgt
    have hnl : risk_level_of (raw_risk_score (last100 driving_history)) ≠ "low" := by
      unfold risk_level_of
      by_cases h80 : 80 < raw_risk_score (last100 driving_history)
      · rw [if_pos h80]; decide
      · rw [if_neg h80, if_pos hgt]; decide
    exact hnl hlev
  have h60 : raw_risk_score (last100 driving_history) ≤ ((60 : ℤ) : ℚ) := by
    exact_mod_cast hraw60
  have hr := round1_le h60
  push_cast at hr
  linarith

/-- C9 witness: the theorem instantiated at a concrete detector and a
concrete one-record history. -/
theorem c9_witness :
    50 ≤ ((constDetector true (1/2)).assess_driving_risk sampleHistory).2.risk_score ∧
    (((constDetector true (1/2)).assess_driving_risk sampleHistory).2.risk_level = "low" →
      50 ≤ ((constDetector true (1/2)).assess_driving_risk sampleHistory).2.risk_score ∧
      ((constDetector true (1/2)).assess_driving_risk sampleHistory).2.risk_score ≤ 60) :=
  c9_score_at_least_50 (constDetector true (1/2)) sampleHistory (List.cons_ne_nil _ _)

/-- C10: the result of `assess_driving_risk` depends only on the last 100
records of the history: assessing the last-100 slice gives the identical
result (score, level, factors and recommendations). -/
theorem c10_last100_sufficient (d : AccidentDetector)
    (driving_history : List DrivingRecord) :
    d.assess_driving_risk (last100 driving_history) =
      d.assess_driving_risk driving_history := by
  by_cases hne : driving_history = []
  · subst hne; rfl
  · have hne' : last100 driving_history ≠ [] :=
      fun c => hne ((last100_eq_nil_iff driving_history).mp c)
    rw [assess_driving_risk_eq d hne', assess_driving_risk_eq d hne, last100_idem]

/-- C4 counterexample: on the empty driving history the result of
`assess_driving_risk` carries no `risk_factors` and no `recommendations`
key, so the claim fails for the empty history. -/
theorem c4_counterexample :
    ((constDetector true (1/2)).assess_driving_risk []).2.risk_factors = none ∧
    ((constDetector true (1/2)).assess_driving_risk []).2.recommendations = none :=
  ⟨rfl, rfl⟩

/-- C4 (amended): for every NON-EMPTY driving history the successful result
of `assess_driving_risk` contains all four fields: a risk score, a risk
level drawn from low/medium/high, a list of risk factors and a list of
recommendations. -/
theorem c4_nonempty_has_all_fields (d : AccidentDetector)
    (driving_history : List DrivingRecord) (hne : driving_history ≠ []) :
    ((d.assess_driving_risk driving_history).2.risk_factors).isSome = true ∧
    ((d.assess_driving_risk driving_history).2.recommendations).isSome = true ∧
    ((d.assess_driving_risk driving_history).2.risk_level = "low" ∨
      (d.assess_driving_risk driving_history).2.risk_level = "medium" ∨
      (d.assess_driving_risk driving_history).2.risk_level = "high") := by
  rw [assess_driving_risk_eq d hne]
  refine ⟨rfl, rfl, ?_⟩
  show risk_level_of (raw_risk_score (last100 driving_history)) = "low" ∨
    risk_level_of (raw_risk_score (last100 driving_history)) = "medium" ∨
    risk_level_of (raw_risk_score (last100 driving_history)) = "high"
  unfold risk_level_of
  split_ifs
  · right; right; rfl
  · right; left; rfl
  · left; rfl

/-- C4 witness: the amended theorem instantiated at a concrete detector
and a concrete one-record history. -/
theorem c4_witness :
    (((constDetector true (1/2)).assess_driving_risk sampleHistory).2.risk_factors).isSome = true ∧
    (((constDetector true (1/2)).assess_driving_risk sampleHistory).2.recommendations).isSome = true ∧
    (((constDetector true (1/2)).assess_driving_risk sampleHistory).2.risk_level = "low" ∨
      ((constDetector true (1/2)).assess_driving_risk sampleHistory).2.risk_level = "medium" ∨
      ((constDetector true (1/2)).assess_driving_risk sampleHistory).2.risk_level = "high") :=
  c4_nonempty_has_all_fields (constDetector true (1/2)) sampleHistory (List.cons_ne_nil _ _)

/-- C8: on the empty driving history (and only on that branch)
`assess_driving_risk` returns exactly risk score 50 and risk level
`'medium'`; the result does not depend on the detector's models, and no
non-empty history produces that exact result. -/
theorem c8_empty_history_branch (d d' : AccidentDetector)
    (driving_history : List DrivingRecord) :
    (d.assess_driving_risk []).2 =
      { risk_score := 50, risk_level := "medium",
        risk_factors := none, recommendations := none } ∧
    (d.assess_driving_risk []).2 = (d'.assess_driving_risk []).2 ∧
    (driving_history ≠ [] →
      (d.assess_driving_risk driving_history).2 ≠
        { risk_score := 50, risk_level := "medium",
          risk_factors := none, recommendations := none }) := by
  refine ⟨rfl, rfl, ?_⟩
  intro hne heq
  rw [assess_driving_risk_eq d hne] at heq
  have hfac : (assessBody (last100 driving_history)).risk_factors = none :=
    congrArg RiskAssessment.risk_factors heq
  simp [assessBody] at hfac

/-- C8 witness: the theorem instantiated at two concrete detectors and a
concrete non-empty history. -/
theorem c8_witness :
    (untrainedDetector.assess_driving_risk []).2 =
      { risk_score := 50, risk_level := "medium",
        risk_factors := none, recommendations := none } ∧
    ((constDetector true (1/2)).assess_driving_risk sampleHistory).2 ≠
      { risk_score := 50, risk_level := "medium",
        risk_factors := none, recommendations := none } :=
  ⟨(c8_empty_history_branch untrainedDetector (constDetector true (1/2)) sampleHistory).1,
   (c8_empty_history_branch (constDetector true (1/2)) untrainedDetector sampleHistory).2.2
     (List.cons_ne_nil _ _)⟩

/-- C7: handling a request leaves the detector unchanged: neither
`detect_accident` nor `assess_driving_risk` modifies the scaler, the
models or the `is_trained` flag. -/
theorem c7_detector_state_unchanged (d : AccidentDetector)
    (sensor_data : SensorData) (driving_history : List DrivingRecord) :
    (d.detect_accident sensor_data).1 = d ∧
    (d.assess_driving_risk driving_history).1 = d := by
  constructor
  · unfold AccidentDetector.detect_accident
    split_ifs <;> rfl
  · cases driving_history <;> rfl

/-- C5: for every sensor record, assuming the classifier's predicted
probability lies in `[0, 1]`, the successful result of `detect_accident`
has `accident_probability` and `confidence` in `[0, 1]`; the confidence
equals the probability when an accident is detected and its complement
otherwise. -/
theorem c5_probability_confidence_range (d : AccidentDetector)
    (sensor_data : SensorData) (a : AccidentAnalysis)
    (hres : (d.detect_accident sensor_data).2 = .ok a)
    (h0 : 0 ≤ d.accident_model.proba1 (d.scaler.transform (featuresOf sensor_data)))
    (h1 : d.accident_model.proba1 (d.scaler.transform (featuresOf sensor_data)) ≤ 1) :
    (0 ≤ a.accident_probability ∧ a.accident_probability ≤ 1) ∧
    (0 ≤ a.confidence ∧ a.confidence ≤ 1) ∧
    (a.accident_detected = true → a.confidence = a.accident_probability) ∧
    (a.accident_detected = false → a.confidence = 1 - a.accident_probability) := by
  unfold AccidentDetector.detect_accident at hres
  split_ifs at hres with ht
  simp only [DetectResult.ok.injEq] at hres
  subst hres
  exact ⟨⟨h0, h1⟩,
    (confidence_cases _ _ h0 h1).1,
    (confidence_cases _ _ h0 h1).2.1,
    (confidence_cases _ _ h0 h1).2.2⟩

/-- C5 witness: the theorem instantiated at a concrete detector whose
classifier predicts probability 1/2 on the empty sensor record. -/
theorem c5_witness :
    (0 ≤ sampleAnalysis.accident_probability ∧ sampleAnalysis.accident_probability ≤ 1) ∧
    (0 ≤ sampleAnalysis.confidence ∧ sampleAnalysis.confidence ≤ 1) ∧
    (sampleAnalysis.accident_detected = true →
      sampleAnalysis.confidence = sampleAnalysis.accident_probability) ∧
    (sampleAnalysis.accident_detected = false →
      sampleAnalysis.confidence = 1 - sampleAnalysis.accident_probability) :=
  c5_probability_confidence_range (constDetector true (1/2)) SensorData.empty sampleAnalysis
    (by
      simp only [AccidentDetector.detect_accident, constDetector, accidentDetectedFlag,
        sampleAnalysis]
      norm_num)
    (by norm_num [constDetector])
    (by norm_num [constDetector])

/-- C2: every absent sensor field is replaced by its fixed default before
feature extraction in `detect_accident` (accelerometer `x=0, y=0, z=-9.8`;
gyroscope `x=y=z=0`; `speed=0`; `heartRate=75`; `oxygenLevel=98`), and the
field reads in the request handlers (`analyze_emergency`,
`assess_driving_risk`, `predict_behavior`) use the same defaults. -/
theorem c2_absent_fields_defaults (s : SensorData) :
    (((s.accelerometer.getD Vec3Opt.empty).x = none → getAccelX s = 0) ∧
     ((s.accelerometer.getD Vec3Opt.empty).y = none → getAccelY s = 0) ∧
     ((s.accelerometer.getD Vec3Opt.empty).z = none → getAccelZ s = -9.8) ∧
     ((s.gyroscope.getD Vec3Opt.empty).x = none → getGyroX s = 0) ∧
     ((s.gyroscope.getD Vec3Opt.empty).y = none → getGyroY s = 0) ∧
     ((s.gyroscope.getD Vec3Opt.empty).z = none → getGyroZ s = 0) ∧
     (s.speed = none → getSpeed s = 0) ∧
     (s.heartRate = none → getHeartRate s = 75) ∧
     (s.oxygenLevel = none → getOxygenLevel s = 98)) ∧
    featuresOf s = [getAccelX s, getAccelY s, getAccelZ s, getGyroX s, getGyroY s,
      getGyroZ s, getSpeed s, getHeartRate s, getOxygenLevel s] ∧
    (emHeartRate s = getHeartRate s ∧ emOxygenLevel s = getOxygenLevel s) ∧
    (asSpeed s = getSpeed s ∧ asAccelX s = getAccelX s ∧ asAccelY s = getAccelY s ∧
     asAccelZ s = getAccelZ s ∧ asGyroX s = getGyroX s ∧ asGyroY s = getGyroY s ∧
     asGyroZ s = getGyroZ s) ∧
    (pbSpeed s = getSpeed s ∧ pbAccelX s = getAccelX s ∧ pbAccelY s = getAccelY s ∧
     pbGyroX s = getGyroX s ∧ pbGyroY s = getGyroY s ∧ pbGyroZ s = getGyroZ s) := by
  refine ⟨⟨?_, ?_, ?_, ?_, ?_, ?_, ?_, ?_, ?_⟩, rfl,
    ⟨rfl, rfl⟩, ⟨rfl, rfl, rfl, rfl, rfl, rfl, rfl⟩, ⟨rfl, rfl, rfl, rfl, rfl, rfl⟩⟩
  all_goals intro h
  · simp [getAccelX, h]
  · simp [getAccelY, h]
  · simp [getAccelZ, h]
  · simp [getGyroX, h]
  · simp [getGyroY, h]
  · simp [getGyroZ, h]
  · simp [getSpeed, h]
  · simp [getHeartRate, h]
  · simp [getOxygenLevel, h]

/-- C2 witness: the defaults observed on the fully-absent sensor record. -/
theorem c2_witness :
    getAccelX SensorData.empty = 0 ∧ getAccelY SensorData.empty = 0 ∧
    getAccelZ SensorData.empty = -9.8 ∧ getGyroX SensorData.empty = 0 ∧
    getGyroY SensorData.empty = 0 ∧ getGyroZ SensorData.empty = 0 ∧
    getSpeed SensorData.empty = 0 ∧ getHeartRate SensorData.empty = 75 ∧
    getOxygenLevel SensorData.empty = 98 :=
  ⟨(c2_absent_fields_defaults SensorData.empty).1.1 rfl,
   (c2_absent_fields_defaults SensorData.empty).1.2.1 rfl,
   (c2_absent_fields_defaults SensorData.empty).1.2.2.1 rfl,
   (c2_absent_fields_defaults SensorData.empty).1.2.2.2.1 rfl,
   (c2_absent_fields_defaults SensorData.empty).1.2.2.2.2.1 rfl,
   (c2_absent_fields_defaults SensorData.empty).1.2.2.2.2.2.1 rfl,
   (c2_absent_fields_defaults SensorData.empty).1.2.2.2.2.2.2.1 rfl,
   (c2_absent_fields_defaults SensorData.empty).1.2.2.2.2.2.2.2.1 rfl,
   (c2_absent_fields_defaults SensorData.empty).1.2.2.2.2.2.2.2.2 rfl⟩

/-- C3 counterexample: with an untrained detector, `detect_accident`
produces an error value, yet the `analyze_emergency` route still answers
HTTP 200 — refuting "an error arising inside accident detection results in
an HTTP 500 JSON error response, never a 200 response". -/
theorem c3_counterexample :
    (analyze_emergency_route untrainedDetector (some emptyEmergencyRequest)).1 = 200 ∧
    (untrainedDetector.detect_accident SensorData.empty).2 =
      .err "Models not trained" ∧
    (analyze_emergency_body untrainedDetector emptyEmergencyRequest).analysis =
      .err "Models not trained" :=
  ⟨rfl, rfl, rfl⟩

/-- C3 (amended): failures RAISED while handling a POST request are caught
at the request boundary and returned as a JSON error payload with HTTP
500; but an error arising inside `detect_accident` is caught inside the
detector and returned as an error value, so `analyze_emergency` answers
HTTP 200 with fallback fields (`accidentProbability` 0, `confidence` 0.5,
`urgency` `'medium'`). -/
theorem c3_raised_failures_500 (d : AccidentDetector)
    (ereq : Option EmergencyRequest) (areq : Option AssessRequest)
    (breq : Option BehaviorRequest) :
    (ereq = none → analyze_emergency_route d ereq =
      (500, .errorBody "exception raised during request handling")) ∧
    (areq = none → assess_risk_route d areq =
      (500, .errorBody "exception raised during request handling")) ∧
    (breq = none → predict_behavior_route d breq =
      (500, .errorBody "exception raised during request handling")) ∧
    (∀ data, ereq = some data → (analyze_emergency_route d ereq).1 = 200) ∧
    (∀ data, areq = some data → (assess_risk_route d areq).1 = 200) ∧
    (∀ data, breq = some data → (predict_behavior_route d breq).1 = 200) ∧
    (∀ data msg, ereq = some data →
      (d.detect_accident (data.sensorData.getD SensorData.empty)).2 = .err msg →
      (analyze_emergency_route d ereq).1 = 200 ∧
      (analyze_emergency_body d data).accidentProbability = 0 ∧
      (analyze_emergency_body d data).confidence = 1/2 ∧
      (analyze_emergency_body d data).urgency = "medium") := by
  refine ⟨?_, ?_, ?_, ?_, ?_, ?_, ?_⟩
  · rintro rfl; rfl
  · rintro rfl; rfl
  · rintro rfl; rfl
  · rintro data rfl; rfl
  · rintro data rfl; rfl
  · rintro data rfl; rfl
  · rintro data msg rfl hdet
    refine ⟨rfl, ?_, ?_, ?_⟩ <;>
      simp [analyze_emergency_body, hdet, DetectResult.probabilityD,
        DetectResult.confidenceD, DetectResult.detectedFlag]

/-- C3 witness: the amended theorem instantiated at the untrained detector,
a parsed emergency request, and unparsable assess/behavior requests. -/
theorem c3_witness :
    (analyze_emergency_route untrainedDetector (some emptyEmergencyRequest)).1 = 200 ∧
    (analyze_emergency_body untrainedDetector emptyEmergencyRequest).confidence = 1/2 ∧
    assess_risk_route untrainedDetector none =
      (500, .errorBody "exception raised during request handling") ∧
    predict_behavior_route untrainedDetector none =
      (500, .errorBody "exception raised during request handling") := by
  have h := c3_raised_failures_500 untrainedDetector (some emptyEmergencyRequest) none none
  exact ⟨h.2.2.2.1 emptyEmergencyRequest rfl,
    (h.2.2.2.2.2.2 emptyEmergencyRequest "Models not trained" rfl rfl).2.2.1,
    h.2.1 rfl, h.2.2.1 rfl⟩

/-- C6 counterexample: on the record with accelerometer `(0, 0, 20)` the
full Euclidean norm `sqrt(x^2+y^2+z^2) = 20` exceeds the harsh-acceleration
threshold 8, yet `predict_behavior` does not flag `harsh_acceleration`,
because its magnitude uses only the x and y components — refuting "every
scoring operation uses the norm of the full {x,y,z} vector". -/
theorem c6_counterexample :
    "harsh_acceleration" ∉
      (predict_behavior_body (constDetector true (1/2)) ⟨some sensorZ20⟩).riskyBehaviors ∧
    (8 : ℝ) < Real.sqrt (((getAccelX sensorZ20 ^ 2 + getAccelY sensorZ20 ^ 2 +
      getAccelZ sensorZ20 ^ 2 : ℚ) : ℝ)) := by
  constructor
  · have hb : (predict_behavior_body (constDetector true (1/2))
        ⟨some sensorZ20⟩).riskyBehaviors = [] := by
      simp only [predict_behavior_body, pbSpeed, pbAccelMagSq, pbAccelX, pbAccelY,
        pbGyroMagSq, pbGyroX, pbGyroY, pbGyroZ, sqrtGt, sensorZ20, Vec3Opt.empty]
      norm_num
    rw [hb]
    exact List.not_mem_nil _
  · have hq : (getAccelX sensorZ20 ^ 2 + getAccelY sensorZ20 ^ 2 +
        getAccelZ sensorZ20 ^ 2 : ℚ) = 400 := by
      norm_num [getAccelX, getAccelY, getAccelZ, sensorZ20]
    rw [hq]
    have h4 : ((400 : ℚ) : ℝ) = (400 : ℝ) := by norm_num
    rw [h4, show (400 : ℝ) = 20 ^ 2 by norm_num,
      Real.sqrt_sq (by norm_num : (0 : ℝ) ≤ 20)]
    norm_num

/-- C6 (amended): risk-label generation and driving-risk assessment
compare the real Euclidean norm of the full accelerometer `{x,y,z}` vector
against their thresholds, while behavior prediction compares the norm of
only the `{x,y}` components: its `harsh_acceleration` flag holds exactly
when `sqrt(x^2+y^2) > 8`, independently of `z`. -/
theorem c6_accel_magnitude_usage (row : FeatureRow) (s : SensorData)
    (d : AccidentDetector) (data : BehaviorRequest) :
    (riskLabelAccelRisk row =
      if (12 : ℝ) < Real.sqrt ((row.accel_x ^ 2 + row.accel_y ^ 2 + row.accel_z ^ 2 : ℚ) : ℝ)
        then 2
      else if (10 : ℝ) < Real.sqrt ((row.accel_x ^ 2 + row.accel_y ^ 2 + row.accel_z ^ 2 : ℚ) : ℝ)
        then 1
      else 0) ∧
    (record_accel_score s =
      if (15 : ℝ) < Real.sqrt ((asAccelX s ^ 2 + asAccelY s ^ 2 + asAccelZ s ^ 2 : ℚ) : ℝ)
        then 8
      else if (12 : ℝ) < Real.sqrt ((asAccelX s ^ 2 + asAccelY s ^ 2 + asAccelZ s ^ 2 : ℚ) : ℝ)
        then 4
      else 0) ∧
    (sqrtGt (pbAccelMagSq s) 8 = true ↔
      (8 : ℝ) < Real.sqrt ((pbAccelX s ^ 2 + pbAccelY s ^ 2 : ℚ) : ℝ)) ∧
    ("harsh_acceleration" ∈ (predict_behavior_body d data).riskyBehaviors ↔
      sqrtGt (pbAccelMagSq (data.sensorData.getD SensorData.empty)) 8 = true) := by
  have h12 := sqrtGt_iff_real
    (m := row.accel_x ^ 2 + row.accel_y ^ 2 + row.accel_z ^ 2) (t := 12) (by norm_num)
  have h10 := sqrtGt_iff_real
    (m := row.accel_x ^ 2 + row.accel_y ^ 2 + row.accel_z ^ 2) (t := 10) (by norm_num)
  have h15 := sqrtGt_iff_real (m := asAccelMagSq s) (t := 15) (by norm_num)
  have h12s := sqrtGt_iff_real (m := asAccelMagSq s) (t := 12) (by norm_num)
  have h8 := sqrtGt_iff_real (m := pbAccelMagSq s) (t := 8) (by norm_num)
  refine ⟨?_, ?_, ?_, ?_⟩
  · rw [riskLabelAccelRisk]
    split_ifs <;> simp_all <;> linarith
  · rw [record_accel_score]
    have hm : asAccelMagSq s = asAccelX s ^ 2 + asAccelY s ^ 2 + asAccelZ s ^ 2 := rfl
    rw [hm] at h15 h12s
    simp only [asAccelMagSq]
    split_ifs <;> simp_all <;> linarith
  · have hm : pbAccelMagSq s = pbAccelX s ^ 2 + pbAccelY s ^ 2 := rfl
    rw [hm] at h8
    exact h8
  · simp only [predict_behavior_body]
    split_ifs with hsp hacc hgy hgy <;> simp_all
